import Mathlib

/-!
Verification development for the AI-Resume-Checker repository.

The embedding covers:
* the SQL schema and row-level-security (RLS) policies declared in the
  migration file (tables profiles, resumes, job_descriptions,
  analysis_reports, their policies and the ON DELETE CASCADE foreign keys);
* the serverless orchestration endpoint
  (supabase/functions/analyze-resume/index.ts), modelled as a pure
  function from an environment (auth lookup, table contents, external
  model behaviour, persistence success) and a request to an HTTP
  response plus an effect record;
* the client upload flow (src/pages/Dashboard.tsx, handleFileUpload),
  modelled as a pure function from the file, identity, timestamp and
  storage/database success flags to the stored key and inserted row.
-/

namespace AIResumeChecker

/-! ## RLS policies (migration file)

Each policy in the migration is `USING (auth.uid() = user_id)` or
`WITH CHECK (auth.uid() = user_id)`.  RLS is enabled on every table, so an
operation with no declared policy is denied.  The profiles table declares
SELECT, UPDATE and INSERT policies but no DELETE policy. -/

inductive Tbl
  | profiles
  | resumes
  | job_descriptions
  | analysis_reports
deriving DecidableEq

inductive Op
  | select
  | insert
  | update
  | delete
deriving DecidableEq

/-- Whether the declared RLS policies permit `op` on a row of `t` whose
`user_id` column is `owner`, for a caller whose `auth.uid()` is `caller`.
Transcribed policy-by-policy from the migration. -/
def rlsAllows : Tbl → Op → String → String → Bool
  | .profiles, .select, caller, owner => caller == owner
  | .profiles, .update, caller, owner => caller == owner
  | .profiles, .insert, caller, owner => caller == owner
  | .profiles, .delete, _, _ => false
  | .resumes, _, caller, owner => caller == owner
  | .job_descriptions, _, caller, owner => caller == owner
  | .analysis_reports, _, caller, owner => caller == owner

/-! ## Table rows -/

/-- A row of public.resumes (columns used by the code). -/
structure ResumeRow where
  id : String
  user_id : String
  title : String
  file_name : String
  file_path : String
  file_size : Option Int
  content_text : Option String
deriving DecidableEq

/-- A row of public.job_descriptions (columns used by the code). -/
structure JobRow where
  id : String
  user_id : String
  title : String
  company : Option String
  description : String
  requirements : Option String
deriving DecidableEq

/-- A row of public.analysis_reports as inserted by the endpoint
(database-generated id and timestamps omitted). -/
structure AnalysisReportRow where
  user_id : String
  resume_id : String
  job_description_id : String
  relevance_score : Int
  missing_skills : List String
  strengths : List String
  weaknesses : List String
  improvement_suggestions : String
  ai_summary : String
  interview_questions : List String
deriving DecidableEq

/-- Report rows keyed by their foreign keys, with an id for the parent
tables.  Used to state the cascade property. -/
structure DB where
  resumes : List ResumeRow
  jobs : List JobRow
  reports : List AnalysisReportRow
deriving DecidableEq

/-- Deleting a resume row.  The foreign key
`resume_id UUID NOT NULL REFERENCES public.resumes(id) ON DELETE CASCADE`
makes the database remove every analysis_reports row referencing the
deleted resume; this is the Postgres semantics of the declared clause. -/
def deleteResumeRow (db : DB) (rid : String) : DB :=
  { db with
    resumes := db.resumes.filter (fun r => r.id != rid)
    reports := db.reports.filter (fun r => r.resume_id != rid) }

/-- Deleting a job_descriptions row; the analogous ON DELETE CASCADE
clause on job_description_id removes dependent reports. -/
def deleteJobRow (db : DB) (jid : String) : DB :=
  { db with
    jobs := db.jobs.filter (fun j => j.id != jid)
    reports := db.reports.filter (fun r => r.job_description_id != jid) }

/-! ## Orchestration endpoint (supabase/functions/analyze-resume/index.ts)

The handler is modelled as a pure function.  Effects of the surrounding
runtime are parameters: `getUser` is `supabaseClient.auth.getUser` (none
models authError or a null user), `openAIContent` is the external model
call (none models a non-ok HTTP response, some the returned message
content), `parseAnalysis` is `JSON.parse` of the content into the
seven-field shape (none models a parse exception), and `saveOk` is
whether the insert into analysis_reports succeeds. -/

/-- The seven-field analysis shape expected from the model. -/
structure AnalysisResult where
  relevance_score : Int
  missing_skills : List String
  strengths : List String
  weaknesses : List String
  improvement_suggestions : String
  ai_summary : String
  interview_questions : List String
deriving DecidableEq

/-- The hardcoded fallback object substituted when parsing the model
response fails (index.ts lines 147-161). -/
def fallbackAnalysis : AnalysisResult where
  relevance_score := 75
  missing_skills := ["Project Management", "Data Analysis"]
  strengths := ["Strong technical background", "Good communication skills"]
  weaknesses := ["Limited industry experience", "Missing key certifications"]
  improvement_suggestions := "Consider adding more specific metrics and achievements to quantify your impact. Include relevant keywords from the job description."
  ai_summary := "Experienced professional with strong technical skills but could benefit from highlighting specific achievements and industry-relevant experience."
  interview_questions :=
    ["Tell me about your experience with project management",
     "How do you handle tight deadlines?",
     "Describe a challenging technical problem you solved",
     "What interests you about this role?",
     "Where do you see yourself in 5 years?"]

/-- Environment of one invocation of the handler. -/
structure Ctx where
  resumesTable : List ResumeRow
  jobsTable : List JobRow
  getUser : String → Option String
  openAIContent : String → Option String
  parseAnalysis : String → Option AnalysisResult
  saveOk : Bool

/-- The incoming HTTP request: method, Authorization header, and the two
ids of the JSON body (none models an absent field). -/
structure AnalyzeReq where
  method : String
  authHeader : Option String
  resumeId : Option String
  jobDescriptionId : Option String
deriving DecidableEq

/-- Body of the handler response.  `okAnalysis` is the JSON envelope with
success:true and the saved analysis row; `errMsg` is the JSON envelope
with success:false and the error message; `empty` is a null body. -/
inductive RespBody
  | empty
  | okAnalysis (analysis : AnalysisReportRow)
  | errMsg (error : String)
deriving DecidableEq

structure HttpResponse where
  status : Nat
  headers : List (String × String)
  body : RespBody
deriving DecidableEq

/-- Result of one handler run: the response plus a record of the side
effects performed (auth verification, database reads, the prompt sent to
the external model if any, and the row inserted if any). -/
structure HandlerOut where
  response : HttpResponse
  authChecked : Bool
  dbTouched : Bool
  modelPrompt : Option String
  inserted : Option AnalysisReportRow
deriving DecidableEq

def corsHeaders : List (String × String) :=
  [("Access-Control-Allow-Origin", "*"),
   ("Access-Control-Allow-Headers", "authorization, x-client-info, apikey, content-type")]

def jsonHeaders : List (String × String) :=
  corsHeaders ++ [("Content-Type", "application/json")]

/-- Replace the first occurrence of `pat` in a character list
(JS `String.replace` with a string pattern). -/
def replaceFirstAux (pat repl : List Char) : List Char → List Char
  | [] => []
  | c :: rest =>
    if pat.isPrefixOf (c :: rest) then repl ++ (c :: rest).drop pat.length
    else c :: replaceFirstAux pat repl rest

/-- JS `s.replace(pat, repl)` for a plain-string pattern: replaces the
first occurrence only. -/
def replaceFirst (s pat repl : String) : String :=
  ⟨replaceFirstAux pat.data repl.data s.data⟩

/-- JS truthiness of a possibly-absent string value (absent, null and
the empty string are falsy). -/
def truthyStr : Option String → Bool
  | none => false
  | some s => s != ""

/-- `.from(table).select().eq(id).eq(user_id).single()`: succeeds exactly
when one row matches both filters. -/
def singleResume (rows : List ResumeRow) (rid uid : String) : Option ResumeRow :=
  match rows.filter (fun r => r.id == rid && r.user_id == uid) with
  | [r] => some r
  | _ => none

/-- Same single-row ownership-filtered fetch for job_descriptions. -/
def singleJob (rows : List JobRow) (jid uid : String) : Option JobRow :=
  match rows.filter (fun j => j.id == jid && j.user_id == uid) with
  | [j] => some j
  | _ => none

/-- The placeholder used when the resume has no extracted text
(index.ts line 72). -/
def placeholderResumeText : String :=
  "Resume content would be extracted from the uploaded file"

/-- `let resumeText = resume.content_text; if (!resumeText) resumeText = placeholder`. -/
def resolveResumeText : Option String → String
  | none => placeholderResumeText
  | some t => if t == "" then placeholderResumeText else t

/-- JS `value || "Not specified"` on a nullable string field. -/
def orNotSpecified : Option String → String
  | none => "Not specified"
  | some s => if s == "" then "Not specified" else s

/-- The fixed prompt template (index.ts lines 76-106) with the resume
text and job fields substituted in. -/
def analysisPrompt (resumeText : String) (job : JobRow) : String :=
  "\nAnalyze the following resume against the job description and provide a comprehensive analysis.\n\nRESUME:\n"
  ++ resumeText
  ++ "\n\nJOB DESCRIPTION:\nTitle: " ++ job.title
  ++ "\nCompany: " ++ orNotSpecified job.company
  ++ "\nDescription: " ++ job.description
  ++ "\nRequirements: " ++ orNotSpecified job.requirements
  ++ "\n\nPlease provide a detailed analysis in the following JSON format:\n\x7b\n  \"relevance_score\": <number between 0-100>,\n  \"missing_skills\": [\"skill1\", \"skill2\"],\n  \"strengths\": [\"strength1\", \"strength2\"],\n  \"weaknesses\": [\"weakness1\", \"weakness2\"],\n  \"improvement_suggestions\": \"Detailed suggestions for improvement\",\n  \"ai_summary\": \"Brief summary of the resume\",\n  \"interview_questions\": [\"question1\", \"question2\", \"question3\", \"question4\", \"question5\"]\n\x7d\n\nFocus on:\n1. ATS compatibility and keyword matching\n2. Skills alignment with job requirements\n3. Experience relevance\n4. Areas for improvement\n5. Predicted interview questions based on the role\n\nProvide actionable, specific feedback."

/-- The analysis_reports row the endpoint inserts (index.ts lines
165-178): the caller identity, the two ids and the seven analysis
fields. -/
def mkReportRow (uid rid jid : String) (a : AnalysisResult) : AnalysisReportRow where
  user_id := uid
  resume_id := rid
  job_description_id := jid
  relevance_score := a.relevance_score
  missing_skills := a.missing_skills
  strengths := a.strengths
  weaknesses := a.weaknesses
  improvement_suggestions := a.improvement_suggestions
  ai_summary := a.ai_summary
  interview_questions := a.interview_questions

/-- The catch block: status 401 exactly when the thrown message is
`Unauthorized`, 500 otherwise; JSON envelope with success:false. -/
def errOut (msg : String) (authChecked dbTouched : Bool) (mp : Option String) : HandlerOut where
  response :=
    { status := if msg == "Unauthorized" then 401 else 500
      headers := jsonHeaders
      body := .errMsg msg }
  authChecked := authChecked
  dbTouched := dbTouched
  modelPrompt := mp
  inserted := none

/-- Tail of the handler once the caller `uid` and the owned rows
`resume` and `job` are in hand: prompt construction, external model
call, JSON parse with the hardcoded fallback, insert, response. -/
def analyzeTail (ctx : Ctx) (uid rid jid : String) (resume : ResumeRow) (job : JobRow) : HandlerOut :=
  let prompt := analysisPrompt (resolveResumeText resume.content_text) job
  match ctx.openAIContent prompt with
  | none => errOut "Failed to analyze resume with AI" true true (some prompt)
  | some content =>
    let analysisResult := (ctx.parseAnalysis content).getD fallbackAnalysis
    let row := mkReportRow uid rid jid analysisResult
    if ctx.saveOk then
      { response := { status := 200, headers := jsonHeaders, body := .okAnalysis row }
        authChecked := true, dbTouched := true
        modelPrompt := some prompt, inserted := some row }
    else errOut "Failed to save analysis" true true (some prompt)

/-- The serve handler of analyze-resume/index.ts, step by step:
OPTIONS preflight, Authorization header check, token verification, body
id check, ownership-filtered fetches of the resume and job description,
then `analyzeTail`; every `throw` routes through `errOut`. -/
def handleAnalyze (ctx : Ctx) (req : AnalyzeReq) : HandlerOut :=
  if req.method == "OPTIONS" then
    { response := { status := 200, headers := corsHeaders, body := .empty }
      authChecked := false, dbTouched := false, modelPrompt := none, inserted := none }
  else
    match req.authHeader with
    | none => errOut "No authorization header" false false none
    | some h =>
      let token := replaceFirst h "Bearer " ""
      match ctx.getUser token with
      | none => errOut "Unauthorized" true false none
      | some uid =>
        if truthyStr req.resumeId && truthyStr req.jobDescriptionId then
          let rid := req.resumeId.getD ""
          let jid := req.jobDescriptionId.getD ""
          match singleResume ctx.resumesTable rid uid with
          | none => errOut "Resume not found" true true none
          | some resume =>
            match singleJob ctx.jobsTable jid uid with
            | none => errOut "Job description not found" true true none
            | some job => analyzeTail ctx uid rid jid resume job
        else errOut "Resume ID and Job Description ID are required" true false none

/-! ## Upload flow (src/pages/Dashboard.tsx, handleFileUpload) -/

/-- The uploaded file as the handler sees it: `file.name`, `file.type`
(the MIME type) and `file.size` in bytes. -/
structure UploadFile where
  name : String
  mimeType : String
  size : Nat
deriving DecidableEq

/-- Success of the two awaited effects: the storage upload and the
metadata insert. -/
structure UploadCtx where
  uploadOk : Bool
  insertOk : Bool
deriving DecidableEq

inductive UploadOutcome
  | rejectedType
  | rejectedSize
  | failed
  | succeeded
deriving DecidableEq

/-- The metadata row inserted into public.resumes by the upload flow
(database-generated columns omitted). -/
structure ResumeInsertRow where
  user_id : String
  title : String
  file_name : String
  file_path : String
  file_size : Nat
deriving DecidableEq

/-- Result of the upload flow: the outcome, the storage key under which
the blob was stored (none when no blob was stored), and the metadata row
inserted (none when no row was inserted). -/
structure UploadOut where
  outcome : UploadOutcome
  storedKey : Option String
  insertedRow : Option ResumeInsertRow
deriving DecidableEq

def allowedTypes : List String :=
  ["application/pdf",
   "application/vnd.openxmlformats-officedocument.wordprocessingml.document"]

/-- JS `file.name.split(".").pop()`: the part after the last dot, or the
whole name when there is no dot. -/
def fileExtOf (name : String) : String :=
  (name.splitOn ".").getLastD ""

/-- JS `file.name.replace(/\.[^/.]+$/, "")`: the regex matches exactly
when the name has a dot whose suffix is non-empty and free of `/` and
`.`; such a match can only start at the last dot, and the replacement
removes that final dot-extension. -/
def stripExtension (name : String) : String :=
  let parts := name.splitOn "."
  let last := parts.getLastD ""
  if parts.length ≥ 2 && last != "" && !(last.contains (Char.ofNat 47)) then
    String.intercalate "." parts.dropLast
  else name

/-- handleFileUpload: MIME-type check, 5MB size check, storage upload
under `{identity}/{timestamp}.{ext}`, then the metadata insert.  `uid` is
`user.id` and `now` is `Date.now()`. -/
def handleFileUpload (ctx : UploadCtx) (uid : String) (now : Nat) (file : UploadFile) : UploadOut :=
  if !(allowedTypes.contains file.mimeType) then
    { outcome := .rejectedType, storedKey := none, insertedRow := none }
  else if file.size > 5 * 1024 * 1024 then
    { outcome := .rejectedSize, storedKey := none, insertedRow := none }
  else
    let fileExt := fileExtOf file.name
    let fileName := uid ++ "/" ++ toString now ++ "." ++ fileExt
    if !ctx.uploadOk then
      { outcome := .failed, storedKey := none, insertedRow := none }
    else if !ctx.insertOk then
      { outcome := .failed, storedKey := some fileName, insertedRow := none }
    else
      { outcome := .succeeded
        storedKey := some fileName
        insertedRow := some
          { user_id := uid
            title := stripExtension file.name
            file_name := file.name
            file_path := fileName
            file_size := file.size } }

/-! ## Concrete fixtures used to instantiate the theorems -/

/-- Whether the response body is the success:false JSON envelope. -/
def isErrBody : RespBody → Bool
  | .errMsg _ => true
  | _ => false

/-- One user `uA` with one resume `r1` and one job description `j1`; the
token `tok` authenticates as `uA`; the external model answers with
content that is not parseable JSON; persistence succeeds. -/
def ctxOneUser : Ctx where
  resumesTable :=
    [{ id := "r1", user_id := "uA", title := "My Resume",
       file_name := "resume.pdf", file_path := "uA/1.pdf",
       file_size := some 100, content_text := some "resume body text" }]
  jobsTable :=
    [{ id := "j1", user_id := "uA", title := "Engineer",
       company := some "Acme", description := "build things",
       requirements := none }]
  getUser := fun t => if t == "tok" then some "uA" else none
  openAIContent := fun _ => some "model answer that is not JSON"
  parseAnalysis := fun _ => none
  saveOk := true

def reqNoHeader : AnalyzeReq where
  method := "POST"
  authHeader := none
  resumeId := some "r1"
  jobDescriptionId := some "j1"

def reqBadToken : AnalyzeReq where
  method := "POST"
  authHeader := some "Bearer wrong"
  resumeId := some "r1"
  jobDescriptionId := some "j1"

def reqMissingIds : AnalyzeReq where
  method := "POST"
  authHeader := some "Bearer tok"
  resumeId := none
  jobDescriptionId := some "j1"

def reqValid : AnalyzeReq where
  method := "POST"
  authHeader := some "Bearer tok"
  resumeId := some "r1"
  jobDescriptionId := some "j1"

def reqOptions : AnalyzeReq where
  method := "OPTIONS"
  authHeader := none
  resumeId := none
  jobDescriptionId := none

def pdfFile : UploadFile where
  name := "john.resume.pdf"
  mimeType := "application/pdf"
  size := 2048

def exeFile : UploadFile where
  name := "virus.exe"
  mimeType := "application/x-msdownload"
  size := 2048

/-! ## Theorems -/

/-- C1: for every table (profiles, resumes, job_descriptions,
analysis_reports) and every operation (select, insert, update, delete),
the declared RLS policies permit the operation only when the row's owner
column equals the caller's identity; hence a caller A can never read,
update or delete a row owned by a distinct user B. -/
theorem c1_rls_owner_only (t : Tbl) (op : Op) (caller owner : String)
    (h : rlsAllows t op caller owner = true) : caller = owner := by
  cases t <;> cases op <;> simp_all [rlsAllows]

theorem c1_rls_owner_only_witness :
    rlsAllows Tbl.resumes Op.select "uA" "uA" = true ∧ "uA" = "uA" :=
  ⟨by decide, c1_rls_owner_only Tbl.resumes Op.select "uA" "uA" (by decide)⟩

/-- C7: deleting a resume or a job description also deletes, through the
ON DELETE CASCADE foreign keys, every analysis_reports row referencing
it: after the deletion no report whose resume_id (resp.
job_description_id) equals the deleted id remains, and the parent row
itself is gone. -/
theorem c7_cascade_deletes_dependent_reports (db : DB) (rid jid : String) :
    (deleteResumeRow db rid).reports.filter (fun r => r.resume_id == rid) = []
    ∧ (deleteResumeRow db rid).resumes.filter (fun r => r.id == rid) = []
    ∧ (deleteJobRow db jid).reports.filter (fun r => r.job_description_id == jid) = []
    ∧ (deleteJobRow db jid).jobs.filter (fun j => j.id == jid) = [] := by
  refine ⟨?_, ?_, ?_, ?_⟩ <;>
  · rw [List.filter_eq_nil_iff]
    intro r hr
    simp only [deleteResumeRow, deleteJobRow, List.mem_filter, bne_iff_ne, ne_eq] at hr
    simp [hr.2]

/-- C9: an OPTIONS (CORS preflight) request gets a status-200 response
with an empty body and exactly the CORS headers, and the handler
performs no authentication, no database access, no external model call
and no insert. -/
theorem c9_options_preflight (ctx : Ctx) (req : AnalyzeReq)
    (hm : req.method = "OPTIONS") :
    handleAnalyze ctx req =
      { response := { status := 200, headers := corsHeaders, body := .empty }
        authChecked := false, dbTouched := false
        modelPrompt := none, inserted := none } := by
  simp [handleAnalyze, hm]

theorem c9_options_preflight_witness :
    handleAnalyze ctxOneUser reqOptions =
      { response := { status := 200, headers := corsHeaders, body := .empty }
        authChecked := false, dbTouched := false
        modelPrompt := none, inserted := none } :=
  c9_options_preflight ctxOneUser reqOptions rfl

/-- C2 counterexample: the concrete request with no Authorization header
is answered with status 500 (the thrown message is not `Unauthorized`,
so the catch block picks 500), not 401 as the claim states. -/
theorem c2_missing_header_counterexample :
    reqNoHeader.authHeader = none
    ∧ (handleAnalyze ctxOneUser reqNoHeader).response.status = 500
    ∧ (handleAnalyze ctxOneUser reqNoHeader).response.status ≠ 401
    ∧ (handleAnalyze ctxOneUser reqNoHeader).response.body
        = RespBody.errMsg "No authorization header" := by
  refine ⟨rfl, rfl, by decide, rfl⟩

/-- C2 amended: a non-preflight request with no Authorization header is
answered with status 500 and a success:false body carrying the message
`No authorization header`; a request whose bearer token fails
verification is answered with status 401 and a success:false body
carrying `Unauthorized`. -/
theorem c2_auth_failure_statuses (ctx : Ctx) (req : AnalyzeReq)
    (hm : req.method ≠ "OPTIONS") :
    (req.authHeader = none →
      (handleAnalyze ctx req).response.status = 500
      ∧ (handleAnalyze ctx req).response.body = RespBody.errMsg "No authorization header")
    ∧ (∀ ah, req.authHeader = some ah →
        ctx.getUser (replaceFirst ah "Bearer " "") = none →
        (handleAnalyze ctx req).response.status = 401
        ∧ (handleAnalyze ctx req).response.body = RespBody.errMsg "Unauthorized") := by
  constructor
  · intro ha
    simp [handleAnalyze, hm, ha, errOut]
  · intro ah ha hg
    simp [handleAnalyze, hm, ha, hg, errOut]

theorem c2_auth_failure_statuses_witness :
    (handleAnalyze ctxOneUser reqBadToken).response.status = 401
    ∧ (handleAnalyze ctxOneUser reqBadToken).response.body
        = RespBody.errMsg "Unauthorized" :=
  (c2_auth_failure_statuses ctxOneUser reqBadToken (by decide)).2
    "Bearer wrong" rfl (by decide)

/-- Helper: under a verified token and ids naming rows owned by the
caller, the handler reduces to its tail. -/
theorem handleAnalyze_reaches_tail (ctx : Ctx) (req : AnalyzeReq)
    (ah uid rid jid : String) (resume : ResumeRow) (job : JobRow)
    (hm : req.method ≠ "OPTIONS")
    (ha : req.authHeader = some ah)
    (hu : ctx.getUser (replaceFirst ah "Bearer " "") = some uid)
    (hr : req.resumeId = some rid) (hrne : rid ≠ "")
    (hj : req.jobDescriptionId = some jid) (hjne : jid ≠ "")
    (hres : singleResume ctx.resumesTable rid uid = some resume)
    (hjob : singleJob ctx.jobsTable jid uid = some job) :
    handleAnalyze ctx req = analyzeTail ctx uid rid jid resume job := by
  simp [handleAnalyze, hm, ha, hu, hr, hj, truthyStr, hrne, hjne, hres, hjob]

/-- Helper: whatever the external model and the insert do, the tail
sends exactly the prompt built from the resolved resume text and the job
fields to the external model. -/
theorem analyzeTail_modelPrompt (ctx : Ctx) (uid rid jid : String)
    (resume : ResumeRow) (job : JobRow) :
    (analyzeTail ctx uid rid jid resume job).modelPrompt
      = some (analysisPrompt (resolveResumeText resume.content_text) job) := by
  unfold analyzeTail
  cases hoc : ctx.openAIContent (analysisPrompt (resolveResumeText resume.content_text) job) with
  | none => simp [hoc, errOut]
  | some content => cases hs : ctx.saveOk <;> simp [hoc, hs, errOut]

/-- C3: when the model call succeeds but its content fails to parse as
JSON, the handler still succeeds: it responds with status 200 and
success:true, and both the returned and the persisted report are built
from the fixed hardcoded fallback payload. -/
theorem c3_parse_failure_falls_back (ctx : Ctx) (req : AnalyzeReq)
    (ah uid rid jid : String) (resume : ResumeRow) (job : JobRow) (content : String)
    (hm : req.method ≠ "OPTIONS")
    (ha : req.authHeader = some ah)
    (hu : ctx.getUser (replaceFirst ah "Bearer " "") = some uid)
    (hr : req.resumeId = some rid) (hrne : rid ≠ "")
    (hj : req.jobDescriptionId = some jid) (hjne : jid ≠ "")
    (hres : singleResume ctx.resumesTable rid uid = some resume)
    (hjob : singleJob ctx.jobsTable jid uid = some job)
    (hmodel : ctx.openAIContent
        (analysisPrompt (resolveResumeText resume.content_text) job) = some content)
    (hparse : ctx.parseAnalysis content = none)
    (hsave : ctx.saveOk = true) :
    (handleAnalyze ctx req).response.status = 200
    ∧ (handleAnalyze ctx req).response.body
        = RespBody.okAnalysis (mkReportRow uid rid jid fallbackAnalysis)
    ∧ (handleAnalyze ctx req).inserted
        = some (mkReportRow uid rid jid fallbackAnalysis) := by
  rw [handleAnalyze_reaches_tail ctx req ah uid rid jid resume job hm ha hu hr hrne hj hjne hres hjob]
  simp [analyzeTail, hmodel, hparse, hsave]

theorem c3_parse_failure_falls_back_witness :
    (handleAnalyze ctxOneUser reqValid).response.status = 200
    ∧ (handleAnalyze ctxOneUser reqValid).response.body
        = RespBody.okAnalysis (mkReportRow "uA" "r1" "j1" fallbackAnalysis)
    ∧ (handleAnalyze ctxOneUser reqValid).inserted
        = some (mkReportRow "uA" "r1" "j1" fallbackAnalysis) :=
  c3_parse_failure_falls_back ctxOneUser reqValid "Bearer tok" "uA" "r1" "j1"
    { id := "r1", user_id := "uA", title := "My Resume",
      file_name := "resume.pdf", file_path := "uA/1.pdf",
      file_size := some 100, content_text := some "resume body text" }
    { id := "j1", user_id := "uA", title := "Engineer",
      company := some "Acme", description := "build things",
      requirements := none }
    "model answer that is not JSON"
    (by decide) rfl (by decide) rfl (by decide) rfl (by decide)
    (by decide) (by decide) (by decide) (by decide) rfl

/-- C6: with a verified token, ids naming a resume and a job description
owned by the caller, a successful model call and successful persistence,
the handler responds with status 200 and success:true carrying a report
with all seven analysis fields, and the persisted row is that same
report, whose user_id is the caller's identity. -/
theorem c6_success_persists_under_caller (ctx : Ctx) (req : AnalyzeReq)
    (ah uid rid jid : String) (resume : ResumeRow) (job : JobRow) (content : String)
    (hm : req.method ≠ "OPTIONS")
    (ha : req.authHeader = some ah)
    (hu : ctx.getUser (replaceFirst ah "Bearer " "") = some uid)
    (hr : req.resumeId = some rid) (hrne : rid ≠ "")
    (hj : req.jobDescriptionId = some jid) (hjne : jid ≠ "")
    (hres : singleResume ctx.resumesTable rid uid = some resume)
    (hjob : singleJob ctx.jobsTable jid uid = some job)
    (hmodel : ctx.openAIContent
        (analysisPrompt (resolveResumeText resume.content_text) job) = some content)
    (hsave : ctx.saveOk = true) :
    (handleAnalyze ctx req).response.status = 200
    ∧ (handleAnalyze ctx req).response.body
        = RespBody.okAnalysis
            (mkReportRow uid rid jid ((ctx.parseAnalysis content).getD fallbackAnalysis))
    ∧ (handleAnalyze ctx req).inserted
        = some (mkReportRow uid rid jid ((ctx.parseAnalysis content).getD fallbackAnalysis))
    ∧ (mkReportRow uid rid jid ((ctx.parseAnalysis content).getD fallbackAnalysis)).user_id
        = uid := by
  rw [handleAnalyze_reaches_tail ctx req ah uid rid jid resume job hm ha hu hr hrne hj hjne hres hjob]
  simp [analyzeTail, hmodel, hsave, mkReportRow]

theorem c6_success_persists_under_caller_witness :
    (handleAnalyze ctxOneUser reqValid).response.status = 200
    ∧ (handleAnalyze ctxOneUser reqValid).response.body
        = RespBody.okAnalysis
            (mkReportRow "uA" "r1" "j1"
              ((ctxOneUser.parseAnalysis "model answer that is not JSON").getD fallbackAnalysis))
    ∧ (handleAnalyze ctxOneUser reqValid).inserted
        = some (mkReportRow "uA" "r1" "j1"
            ((ctxOneUser.parseAnalysis "model answer that is not JSON").getD fallbackAnalysis))
    ∧ (mkReportRow "uA" "r1" "j1"
        ((ctxOneUser.parseAnalysis "model answer that is not JSON").getD fallbackAnalysis)).user_id
        = "uA" :=
  c6_success_persists_under_caller ctxOneUser reqValid "Bearer tok" "uA" "r1" "j1"
    { id := "r1", user_id := "uA", title := "My Resume",
      file_name := "resume.pdf", file_path := "uA/1.pdf",
      file_size := some 100, content_text := some "resume body text" }
    { id := "j1", user_id := "uA", title := "Engineer",
      company := some "Acme", description := "build things",
      requirements := none }
    "model answer that is not JSON"
    (by decide) rfl (by decide) rfl (by decide) rfl (by decide)
    (by decide) (by decide) (by decide) rfl

/-- C8: on every path that reaches the external model call, the prompt
sent is the fixed template with the job fields substituted in and, for
the resume slot, the resume's extracted text when that text is present
and non-empty, and the fixed placeholder string when it is absent. -/
theorem c8_prompt_built_from_template (ctx : Ctx) (req : AnalyzeReq)
    (ah uid rid jid : String) (resume : ResumeRow) (job : JobRow)
    (hm : req.method ≠ "OPTIONS")
    (ha : req.authHeader = some ah)
    (hu : ctx.getUser (replaceFirst ah "Bearer " "") = some uid)
    (hr : req.resumeId = some rid) (hrne : rid ≠ "")
    (hj : req.jobDescriptionId = some jid) (hjne : jid ≠ "")
    (hres : singleResume ctx.resumesTable rid uid = some resume)
    (hjob : singleJob ctx.jobsTable jid uid = some job) :
    (resume.content_text = none →
      (handleAnalyze ctx req).modelPrompt
        = some (analysisPrompt placeholderResumeText job))
    ∧ (∀ t, resume.content_text = some t → t ≠ "" →
        (handleAnalyze ctx req).modelPrompt = some (analysisPrompt t job)) := by
  rw [handleAnalyze_reaches_tail ctx req ah uid rid jid resume job hm ha hu hr hrne hj hjne hres hjob]
  constructor
  · intro hnone
    rw [analyzeTail_modelPrompt, hnone]
    rfl
  · intro t ht htne
    rw [analyzeTail_modelPrompt, ht]
    simp [resolveResumeText, htne]

theorem c8_prompt_built_from_template_witness :
    (handleAnalyze ctxOneUser reqValid).modelPrompt
      = some (analysisPrompt "resume body text"
          { id := "j1", user_id := "uA", title := "Engineer",
            company := some "Acme", description := "build things",
            requirements := none }) :=
  (c8_prompt_built_from_template ctxOneUser reqValid "Bearer tok" "uA" "r1" "j1"
    { id := "r1", user_id := "uA", title := "My Resume",
      file_name := "resume.pdf", file_path := "uA/1.pdf",
      file_size := some 100, content_text := some "resume body text" }
    { id := "j1", user_id := "uA", title := "Engineer",
      company := some "Acme", description := "build things",
      requirements := none }
    (by decide) rfl (by decide) rfl (by decide) rfl (by decide)
    (by decide) (by decide)).2 "resume body text" rfl (by decide)

/-- C5 counterexample: the concrete authenticated request whose body
lacks resumeId is answered with status 500, which is not a client-error
(4xx) status as the claim states. -/
theorem c5_missing_id_counterexample :
    reqMissingIds.resumeId = none
    ∧ (handleAnalyze ctxOneUser reqMissingIds).response.status = 500
    ∧ ¬(400 ≤ (handleAnalyze ctxOneUser reqMissingIds).response.status
        ∧ (handleAnalyze ctxOneUser reqMissingIds).response.status < 500) := by
  refine ⟨rfl, rfl, by decide⟩

/-- C5 amended: a non-preflight request with a verified token whose body
lacks one of the two ids (or carries an empty one), or whose ids do not
name a resume resp. job description owned by the caller, is answered
with status 500 (a server-error status, not a 4xx client error) and a
success:false JSON body. -/
theorem c5_invalid_ids_give_500 (ctx : Ctx) (req : AnalyzeReq)
    (ah uid : String)
    (hm : req.method ≠ "OPTIONS")
    (ha : req.authHeader = some ah)
    (hu : ctx.getUser (replaceFirst ah "Bearer " "") = some uid)
    (hbad : (truthyStr req.resumeId && truthyStr req.jobDescriptionId) = false
      ∨ singleResume ctx.resumesTable (req.resumeId.getD "") uid = none
      ∨ singleJob ctx.jobsTable (req.jobDescriptionId.getD "") uid = none) :
    (handleAnalyze ctx req).response.status = 500
    ∧ isErrBody (handleAnalyze ctx req).response.body = true := by
  cases htr : (truthyStr req.resumeId && truthyStr req.jobDescriptionId) with
  | false => simp [handleAnalyze, hm, ha, hu, htr, errOut, isErrBody]
  | true =>
    rcases hbad with h1 | h2 | h3
    · rw [htr] at h1
      exact absurd h1 (by decide)
    · simp [handleAnalyze, hm, ha, hu, htr, h2, errOut, isErrBody]
    · cases hres : singleResume ctx.resumesTable (req.resumeId.getD "") uid with
      | none => simp [handleAnalyze, hm, ha, hu, htr, hres, errOut, isErrBody]
      | some resume =>
        simp [handleAnalyze, hm, ha, hu, htr, hres, h3, errOut, isErrBody]

theorem c5_invalid_ids_give_500_witness :
    (handleAnalyze ctxOneUser reqMissingIds).response.status = 500
    ∧ isErrBody (handleAnalyze ctxOneUser reqMissingIds).response.body = true :=
  c5_invalid_ids_give_500 ctxOneUser reqMissingIds "Bearer tok" "uA"
    (by decide) rfl (by decide) (Or.inl (by decide))

/-- C4: a file whose MIME type is not one of the two allowed types, or
whose size exceeds 5MB, is rejected before the storage upload and the
metadata insert: no blob is stored and no row is inserted, whatever the
storage and database would have answered. -/
theorem c4_upload_rejects_bad_type_or_size (ctx : UploadCtx) (uid : String)
    (now : Nat) (file : UploadFile)
    (h : file.mimeType ∉ allowedTypes ∨ file.size > 5 * 1024 * 1024) :
    (handleFileUpload ctx uid now file).storedKey = none
    ∧ (handleFileUpload ctx uid now file).insertedRow = none
    ∧ ((handleFileUpload ctx uid now file).outcome = UploadOutcome.rejectedType
       ∨ (handleFileUpload ctx uid now file).outcome = UploadOutcome.rejectedSize) := by
  rcases h with h | h
  · simp [handleFileUpload, h]
  · by_cases ht : file.mimeType ∈ allowedTypes
    · simp [handleFileUpload, ht, h]
    · simp [handleFileUpload, ht]

theorem c4_upload_rejects_bad_type_or_size_witness :
    (handleFileUpload { uploadOk := true, insertOk := true } "uA" 1700000000000 exeFile).storedKey = none
    ∧ (handleFileUpload { uploadOk := true, insertOk := true } "uA" 1700000000000 exeFile).insertedRow = none
    ∧ ((handleFileUpload { uploadOk := true, insertOk := true } "uA" 1700000000000 exeFile).outcome
          = UploadOutcome.rejectedType
       ∨ (handleFileUpload { uploadOk := true, insertOk := true } "uA" 1700000000000 exeFile).outcome
          = UploadOutcome.rejectedSize) :=
  c4_upload_rejects_bad_type_or_size { uploadOk := true, insertOk := true }
    "uA" 1700000000000 exeFile (Or.inl (by decide))

/-- C10: on a successful upload the inserted metadata row's title is the
file name with its final dot-extension removed, its file_name is the
original file name, and its file_path is the storage key
`{identity}/{timestamp}.{ext}` under which the blob was stored. -/
theorem c10_upload_metadata_matches (ctx : UploadCtx) (uid : String)
    (now : Nat) (file : UploadFile)
    (ht : file.mimeType ∈ allowedTypes)
    (hs : file.size ≤ 5 * 1024 * 1024)
    (hup : ctx.uploadOk = true) (hins : ctx.insertOk = true) :
    handleFileUpload ctx uid now file =
      { outcome := UploadOutcome.succeeded
        storedKey := some (uid ++ "/" ++ toString now ++ "." ++ fileExtOf file.name)
        insertedRow := some
          { user_id := uid
            title := stripExtension file.name
            file_name := file.name
            file_path := uid ++ "/" ++ toString now ++ "." ++ fileExtOf file.name
            file_size := file.size } } := by
  simp [handleFileUpload, ht, not_lt.mpr hs, hup, hins]

theorem c10_upload_metadata_matches_witness :
    handleFileUpload { uploadOk := true, insertOk := true } "uA" 1700000000000 pdfFile =
      { outcome := UploadOutcome.succeeded
        storedKey := some ("uA" ++ "/" ++ toString 1700000000000 ++ "." ++ fileExtOf "john.resume.pdf")
        insertedRow := some
          { user_id := "uA"
            title := stripExtension "john.resume.pdf"
            file_name := "john.resume.pdf"
            file_path := "uA" ++ "/" ++ toString 1700000000000 ++ "." ++ fileExtOf "john.resume.pdf"
            file_size := 2048 } } :=
  c10_upload_metadata_matches { uploadOk := true, insertOk := true }
    "uA" 1700000000000 pdfFile (by decide) (by decide) rfl rfl

end AIResumeChecker
